import Mathlib

/-!
# spotify-api-server: a shallow embedding of `server.c` and `json.c`

The request dispatcher `handle_request`, the deferred-load callback
`playlist_state_changed` and the serializer `playlist_to_json` are translated
function by function.  Calls into libevent and libspotify that are visible
from outside the process (replies, headers, handle acquisition and release,
callback registration) are recorded, in program order, in a trace of `event`s.
Answers of the libraries (link parsing, playlist lookup, `malloc`) are inputs,
gathered in `env`.  C strings are modelled by their content before the
terminating NUL.
-/

namespace SpotifyApiServer

/-! ## jansson values -/

/-- A jansson value (`json_t`).  An object keeps its keys in insertion order. -/
inductive json_t where
  | null : json_t
  | true : json_t
  | false : json_t
  | integer (n : Int) : json_t
  | string (s : String) : json_t
  | array (xs : List json_t) : json_t
  | object (kv : List (String × json_t)) : json_t

/-- The empty object, `json_object()`. -/
def json_object : json_t := json_t.object []

/-- Replace the value stored under `key`, or append the pair when the key is new. -/
def kv_set (key : String) (value : json_t) : List (String × json_t) → List (String × json_t)
  | [] => [(key, value)]
  | (k, v) :: rest => if k = key then (key, value) :: rest else (k, v) :: kv_set key value rest

/-- Look a key up in a list of pairs. -/
def kv_get (key : String) : List (String × json_t) → Option json_t
  | [] => none
  | (k, v) :: rest => if k = key then some v else kv_get key rest

/-- The call `json_object_set_new(object, key, value)`: a no-op (error return) on a
value that is not an object. -/
def json_object_set_new (object : json_t) (key : String) (value : json_t) : json_t :=
  match object with
  | json_t.object kv => json_t.object (kv_set key value kv)
  | other => other

/-- The call `json_object_set_new_nocheck`: as `json_object_set_new`, without the UTF-8
check of the key (all keys here are ASCII literals). -/
def json_object_set_new_nocheck (object : json_t) (key : String) (value : json_t) : json_t :=
  json_object_set_new object key value

/-- The call `json_object_get(object, key)`. -/
def json_object_get (object : json_t) (key : String) : Option json_t :=
  match object with
  | json_t.object kv => kv_get key kv
  | _ => none

/-- Number of elements of an array value, `json_array_size`. -/
def json_array_size (j : json_t) : Nat :=
  match j with
  | json_t.array xs => xs.length
  | _ => 0

/-! ## C string helpers -/

/-- The scan of `strtok` for the end of a token: the token and what follows its
terminating delimiter. -/
def strtok_token (delim : Char) : List Char → List Char × List Char
  | [] => ([], [])
  | c :: cs =>
    if c = delim then ([], cs)
    else ((strtok_token delim cs).1.cons c, (strtok_token delim cs).2)

/-- One call of `strtok(s, delim)` with a one-character delimiter set: leading
delimiters are skipped; `none` is the NULL return at the end of the string; otherwise
the token and the saved position for the next call. -/
def strtok (delim : Char) : List Char → Option (List Char × List Char)
  | [] => none
  | c :: cs => if c = delim then strtok delim cs else some (strtok_token delim (c :: cs))

/-- The call `strncmp(a, b, n)`: difference of the first differing bytes within the
first `n`, zero when there is none. -/
def strncmp : List Char → List Char → Nat → Int
  | _, _, 0 => 0
  | [], [], _ + 1 => 0
  | [], b :: _, _ + 1 => 0 - (b.toNat : Int)
  | a :: _, [], _ + 1 => (a.toNat : Int)
  | a :: as, b :: bs, n + 1 =>
    if a = b then strncmp as bs n else (a.toNat : Int) - (b.toNat : Int)

/-! ## libspotify objects, as the queries of the code see them -/

/-- Link types of libspotify that the dispatcher can meet (`sp_linktype`). -/
inductive sp_linktype where
  | SP_LINKTYPE_INVALID
  | SP_LINKTYPE_TRACK
  | SP_LINKTYPE_ALBUM
  | SP_LINKTYPE_ARTIST
  | SP_LINKTYPE_SEARCH
  | SP_LINKTYPE_PLAYLIST
  deriving DecidableEq, Repr

/-- A link handle: its type and its full string representation. -/
structure sp_link where
  type : sp_linktype
  str : String
  deriving DecidableEq, Repr

/-- An artist, queried through `sp_artist_name`. -/
structure sp_artist where
  name : String
  deriving DecidableEq, Repr

/-- An album; `name` is the result of `sp_album_name`, `none` for a NULL pointer. -/
structure sp_album where
  name : Option String
  deriving DecidableEq, Repr

/-- A track, with the answer of each query `playlist_to_json` makes on it.  The field
`link` is the full string representation of `sp_link_create_from_track(track, 0)`. -/
structure sp_track where
  is_loaded : Bool
  link : String
  artists : List sp_artist
  name : Option String
  album : sp_album
  duration : Int
  popularity : Int
  deriving DecidableEq, Repr

/-- A user, queried through `sp_user_display_name`. -/
structure sp_user where
  display_name : String
  deriving DecidableEq, Repr

/-- A playlist at one instant, with the answer of each query the code makes on it.
The field `link` is the full string representation of
`sp_link_create_from_playlist(playlist)`. -/
structure sp_playlist where
  is_loaded : Bool
  owner : sp_user
  link : String
  name : String
  is_collaborative : Bool
  description : Option String
  num_subscribers : Int
  tracks : List sp_track
  deriving DecidableEq, Repr

def sp_playlist_is_loaded (playlist : sp_playlist) : Bool := playlist.is_loaded

def sp_playlist_num_tracks (playlist : sp_playlist) : Nat := playlist.tracks.length

/-- The call `sp_playlist_track(playlist, i)`; `none` is NULL, for an index out of range. -/
def sp_playlist_track (playlist : sp_playlist) (i : Nat) : Option sp_track :=
  playlist.tracks.get? i

/-- The call `sp_track_is_loaded(track)`; a NULL track is not loaded. -/
def sp_track_is_loaded (track : Option sp_track) : Bool :=
  match track with
  | some t => t.is_loaded
  | none => Bool.false

/-- The call `sp_link_as_string(link, buffer, buffer_size)`: the representation is
written like `snprintf` does, cut to `buffer_size - 1` characters.  A link string is
ASCII (a Spotify uri escapes every other character), so its characters are its bytes. -/
def sp_link_as_string (link : String) (buffer_size : Nat) : String :=
  String.mk (link.data.take (buffer_size - 1))

/-- The call `strlen(s)`: the number of bytes of the string, in its UTF-8 encoding,
before the terminating NUL. -/
def strlen (s : String) : Nat := s.utf8ByteSize

/-- The constant `kTrackLinkLength` of `constants.h`, a `sizeof` that counts the NUL. -/
def kTrackLinkLength : Nat := strlen "spotify:track:58PipbkYEkKFzOowRPHF3m" + 1

/-- Answers of the libraries that `handle_request` and `playlist_to_json` branch on. -/
structure env where
  sp_link_create_from_string : String → Option sp_link
  sp_playlist_create : sp_link → Option sp_playlist
  malloc : Nat → Bool

/-! ## json.c -/

/-- What a call of `playlist_to_json` comes to: the `assert` on the loaded state
fails, NULL is returned, or the filled object is returned. -/
inductive playlist_to_json_result where
  | assertion_failed : playlist_to_json_result
  | null : playlist_to_json_result
  | object (json : json_t) : playlist_to_json_result

/-- The call `playlist_to_json_set_collaborative(playlist, object)`. -/
def playlist_to_json_set_collaborative (playlist : sp_playlist) (object : json_t) : json_t :=
  let collaborative := playlist.is_collaborative
  json_object_set_new object "collaborative"
    (if collaborative then json_t.true else json_t.false)

/-- The size `playlist_uri_len` of the buffer that `playlist_to_json` allocates for the
playlist uri, computed from the display name of the owner. -/
def playlist_uri_len (username : String) : Nat :=
  strlen "spotify:user:" + strlen username + strlen ":playlist:" +
    strlen "284on3DVWeAxWkgVuzZKGt" + 1

/-- The body of the track loop of `playlist_to_json` for a loaded track: the
`metadata` object appended to the `tracks` array.  The test `if(artists)` is on a
pointer that `json_array()` has just returned, and holds. -/
def track_metadata (track : sp_track) : json_t :=
  let metadata := json_object
  let artists := json_t.array (track.artists.map (fun a => json_t.string a.name))
  let track_uri := sp_link_as_string track.link kTrackLinkLength
  let metadata :=
    match track.name with
    | some name => json_object_set_new_nocheck metadata "title" (json_t.string name)
    | none => metadata
  let metadata :=
    match track.album.name with
    | some name => json_object_set_new_nocheck metadata "album" (json_t.string name)
    | none => metadata
  let metadata := json_object_set_new_nocheck metadata "trackuri" (json_t.string track_uri)
  let metadata := json_object_set_new_nocheck metadata "artists" artists
  let metadata :=
    if track.duration ≠ 0 then
      json_object_set_new_nocheck metadata "duration" (json_t.integer track.duration)
    else metadata
  let metadata :=
    if track.popularity ≠ 0 then
      json_object_set_new_nocheck metadata "popularity" (json_t.integer track.popularity)
    else metadata
  metadata

/-- One iteration of the track loop of `playlist_to_json`, at index `i`, on the
elements of the `tracks` array so far. -/
def playlist_to_json_track (playlist : sp_playlist) (tracks : List json_t) (i : Nat) :
    List json_t :=
  let track := sp_playlist_track playlist i
  if sp_track_is_loaded track then
    match track with
    | some t => tracks ++ [track_metadata t]
    | none => tracks
  else tracks

/-- The track loop of `playlist_to_json`, `for (i = 0; i < sp_playlist_num_tracks(playlist); i++)`:
the elements of the `tracks` array when the loop ends. -/
def playlist_to_json_tracks (playlist : sp_playlist) : List json_t :=
  (List.range (sp_playlist_num_tracks playlist)).foldl (playlist_to_json_track playlist) []

/-- The function `playlist_to_json(playlist, object)`.  The `tracks` array is stored in
the object before the loop fills it; the object holds a pointer to it, so the stored
value is the array as the loop leaves it. -/
def playlist_to_json (e : env) (playlist : sp_playlist) (object : json_t) :
    playlist_to_json_result :=
  if !sp_playlist_is_loaded playlist then playlist_to_json_result.assertion_failed
  else
    let username := playlist.owner.display_name
    let object := json_object_set_new_nocheck object "creator" (json_t.string username)
    if !e.malloc (playlist_uri_len username) then playlist_to_json_result.null
    else
      let playlist_uri := sp_link_as_string playlist.link (playlist_uri_len username)
      let object := json_object_set_new object "uri" (json_t.string playlist_uri)
      let title := playlist.name
      let object := json_object_set_new object "title" (json_t.string title)
      let object := playlist_to_json_set_collaborative playlist object
      let object :=
        match playlist.description with
        | some description =>
          json_object_set_new object "description" (json_t.string description)
        | none => object
      let num_subscribers := playlist.num_subscribers
      let object := json_object_set_new object "subscriberCount" (json_t.integer num_subscribers)
      let num_tracks := sp_playlist_num_tracks playlist
      let object := json_object_set_new object "trackCount" (json_t.integer (num_tracks : Int))
      let tracks := json_t.array (playlist_to_json_tracks playlist)
      let object := json_object_set_new object "tracks" tracks
      playlist_to_json_result.object object

/-! ## server.c -/

def HTTP_OK : Nat := 200

def HTTP_BADREQUEST : Nat := 400

def HTTP_NOTFOUND : Nat := 404

def HTTP_ERROR : Nat := 500

def HTTP_NOTIMPL : Nat := 501

/-- Request methods of libevent (`enum evhttp_cmd_type`). -/
inductive evhttp_cmd_type where
  | EVHTTP_REQ_GET
  | EVHTTP_REQ_POST
  | EVHTTP_REQ_HEAD
  | EVHTTP_REQ_PUT
  | EVHTTP_REQ_DELETE
  | EVHTTP_REQ_OPTIONS
  | EVHTTP_REQ_TRACE
  | EVHTTP_REQ_CONNECT
  | EVHTTP_REQ_PATCH
  deriving DecidableEq, Repr

/-- An inbound request: its method and its uri as `evhttp_decode_uri` returns it. -/
structure evhttp_request where
  command : evhttp_cmd_type
  decoded_uri : String
  deriving DecidableEq, Repr

/-- The two functions of type `handle_playlist_fn` that `server.c` defines. -/
inductive handle_playlist_fn where
  | not_implemented
  | get_playlist
  deriving DecidableEq, Repr

/-- The only callback table of `server.c`, whose `playlist_state_changed` entry is
the function `playlist_state_changed`. -/
inductive sp_playlist_callbacks where
  | playlist_state_changed_callbacks
  deriving DecidableEq, Repr

/-- State of a request as it is threaded through libspotify callbacks
(`struct playlist_handler`); `userdata` is `none` for NULL. -/
structure playlist_handler where
  playlist_callbacks : sp_playlist_callbacks
  request : evhttp_request
  callback : handle_playlist_fn
  userdata : Option Unit
  deriving DecidableEq, Repr

/-- Content of an output buffer: the JSON values whose compact dump
(`json_dumps(json, JSON_COMPACT)`) was added to it, in order. -/
abbrev evbuffer := List json_t

/-- A call into libevent or libspotify made by `server.c` for one request. -/
inductive event where
  | evhttp_connection_set_timeout (seconds : Nat) : event
  | evhttp_add_header (key value : String) : event
  | evhttp_send_error (code : Nat) (reason : String) : event
  | evhttp_send_reply (code : Nat) (reason : String) (body : evbuffer) : event
  | sp_link_create_from_string (s : String) : event
  | sp_link_release (link : sp_link) : event
  | sp_playlist_create (link : sp_link) : event
  | sp_playlist_add_ref (playlist : sp_playlist) : event
  | sp_playlist_release (playlist : sp_playlist) : event
  | sp_playlist_add_callbacks (playlist : sp_playlist) (handler : playlist_handler) : event
  | abort : event

/-- The function `send_reply(request, code, message, body)`; `none` is a NULL body,
replaced by a new empty buffer. -/
def send_reply (code : Nat) (message : String) (body : Option evbuffer) : List event :=
  [event.evhttp_add_header "Content-type" "application/json; charset=UTF-8",
   event.evhttp_send_reply code message (match body with
     | some buf => buf
     | none => [])]

/-- The function `send_reply_json(request, code, message, json)`: the dump of `json`
is added to the output buffer of the request, which is sent as the body. -/
def send_reply_json (code : Nat) (message : String) (json : json_t) : List event :=
  send_reply code message (some [json])

/-- The function `send_error(request, code, message)`. -/
def send_error (code : Nat) (message : String) : List event :=
  let error_object := json_object
  let error_object := json_object_set_new error_object "message" (json_t.string message)
  send_reply_json code message error_object

/-- The function `not_implemented(playlist, request, userdata)`. -/
def not_implemented : List event :=
  [event.evhttp_send_error HTTP_NOTIMPL "Not Implemented"]

/-- The function `get_playlist(playlist, request, userdata)`. -/
def get_playlist (e : env) (playlist : sp_playlist) : List event :=
  match playlist_to_json e playlist json_object with
  | playlist_to_json_result.assertion_failed => [event.abort]
  | playlist_to_json_result.null => send_error HTTP_ERROR ""
  | playlist_to_json_result.object json => send_reply_json HTTP_OK "OK" json

/-- A call through a `handle_playlist_fn` pointer. -/
def call_handle_playlist_fn (f : handle_playlist_fn) (e : env) (playlist : sp_playlist) :
    List event :=
  match f with
  | handle_playlist_fn.not_implemented => not_implemented
  | handle_playlist_fn.get_playlist => get_playlist e playlist

/-- The function `register_playlist_callbacks`. -/
def register_playlist_callbacks (playlist : sp_playlist) (request : evhttp_request)
    (callback : handle_playlist_fn) (playlist_callbacks : sp_playlist_callbacks)
    (userdata : Option Unit) : List event :=
  let handler : playlist_handler :=
    { request := request, callback := callback,
      playlist_callbacks := playlist_callbacks, userdata := userdata }
  [event.sp_playlist_add_callbacks playlist handler]

/-- The function `playlist_state_changed(playlist, userdata)`: both branches of its
only test end the function. -/
def playlist_state_changed (playlist : sp_playlist) (_userdata : playlist_handler) :
    List event :=
  if !sp_playlist_is_loaded playlist then []
  else []

/-- The part of `handle_request` from `sp_playlist_create` on, for a playlist link. -/
def handle_request_playlist (e : env) (request : evhttp_request)
    (http_method : evhttp_cmd_type) (playlist_link : sp_link) : List event :=
  match e.sp_playlist_create playlist_link with
  | none =>
    [event.sp_playlist_create playlist_link, event.sp_link_release playlist_link] ++
      send_error HTTP_NOTFOUND "Playlist not found"
  | some playlist =>
    let request_callback :=
      match http_method with
      | evhttp_cmd_type.EVHTTP_REQ_GET => handle_playlist_fn.get_playlist
      | _ => handle_playlist_fn.not_implemented
    let callback_userdata : Option Unit := none
    [event.sp_playlist_create playlist_link, event.sp_link_release playlist_link,
     event.sp_playlist_add_ref playlist] ++
      (if sp_playlist_is_loaded playlist then call_handle_playlist_fn request_callback e playlist
       else register_playlist_callbacks playlist request request_callback
         sp_playlist_callbacks.playlist_state_changed_callbacks callback_userdata)

/-- The part of `handle_request` after the method check: the path is cut with
`strtok(uri, "/")` and the identifier is handed to libspotify. -/
def handle_request_uri (e : env) (request : evhttp_request)
    (http_method : evhttp_cmd_type) : List event :=
  match strtok '/' request.decoded_uri.data with
  | none => [event.evhttp_send_error HTTP_BADREQUEST "Bad Request"]
  | some (entity, saved) =>
    if strncmp entity "playlist".data 8 ≠ 0 then
      [event.evhttp_send_error HTTP_BADREQUEST "Bad Request"]
    else
      match strtok '/' saved with
      | none => send_error HTTP_BADREQUEST "Bad Request"
      | some (playlist_uri, _) =>
        match e.sp_link_create_from_string (String.mk playlist_uri) with
        | none =>
          [event.sp_link_create_from_string (String.mk playlist_uri)] ++
            send_error HTTP_NOTFOUND "Playlist link not found"
        | some playlist_link =>
          if playlist_link.type ≠ sp_linktype.SP_LINKTYPE_PLAYLIST then
            [event.sp_link_create_from_string (String.mk playlist_uri),
             event.sp_link_release playlist_link] ++
              send_error HTTP_BADREQUEST "Not a playlist link"
          else
            [event.sp_link_create_from_string (String.mk playlist_uri)] ++
              handle_request_playlist e request http_method playlist_link

/-- The function `handle_request(request, userdata)`: every call it makes into
libevent and libspotify for the request, in program order. -/
def handle_request (e : env) (request : evhttp_request) : List event :=
  let http_method := request.command
  [event.evhttp_connection_set_timeout 1,
   event.evhttp_add_header "Server" "Spotify API"] ++
    (match http_method with
     | evhttp_cmd_type.EVHTTP_REQ_GET => handle_request_uri e request http_method
     | _ => [event.evhttp_send_error HTTP_NOTIMPL "Not Implemented"])

/-! ## The lifecycle of a request -/

/-- The handlers that a trace has registered with `sp_playlist_add_callbacks`;
`server.c` has no call that removes one. -/
def registered_handlers : List event → List playlist_handler
  | [] => []
  | event.sp_playlist_add_callbacks _ handler :: rest => handler :: registered_handlers rest
  | _ :: rest => registered_handlers rest

/-- Delivery by libspotify of one state-change notification for the playlist, seen in
the state `playlist`: the `playlist_state_changed` entry of every registered callback
table runs with its handler as `userdata`. -/
def deliver_state_changed (trace : List event) (playlist : sp_playlist) : List event :=
  trace ++ ((registered_handlers trace).map (playlist_state_changed playlist)).flatten

/-- A request from `handle_request` through a sequence of state-change notifications,
each with the state of the playlist when it is delivered. -/
def lifecycle (e : env) (request : evhttp_request) (notifications : List sp_playlist) :
    List event :=
  notifications.foldl deliver_state_changed (handle_request e request)

/-- Whether the event sends an HTTP reply. -/
def event.is_reply : event → Bool
  | event.evhttp_send_error _ _ => Bool.true
  | event.evhttp_send_reply _ _ _ => Bool.true
  | _ => Bool.false

/-- Status code of a reply event. -/
def event.reply_code : event → Option Nat
  | event.evhttp_send_error code _ => some code
  | event.evhttp_send_reply code _ _ => some code
  | _ => none

/-- Status codes of the replies of a trace, in order. -/
def reply_codes (trace : List event) : List Nat := trace.filterMap event.reply_code

/-- The replies of a trace: the calls of `evhttp_send_error` and `evhttp_send_reply`. -/
def replies (trace : List event) : List event := trace.filter event.is_reply

/-- The strings handed to `sp_link_create_from_string` in a trace. -/
def links_created : List event → List String
  | [] => []
  | event.sp_link_create_from_string s :: rest => s :: links_created rest
  | _ :: rest => links_created rest

/-- Number of calls of `sp_playlist_create` in a trace. -/
def playlists_created : List event → Nat
  | [] => 0
  | event.sp_playlist_create _ :: rest => playlists_created rest + 1
  | _ :: rest => playlists_created rest

/-- Number of calls of `sp_playlist_add_ref` in a trace. -/
def playlist_refs_added : List event → Nat
  | [] => 0
  | event.sp_playlist_add_ref _ :: rest => playlist_refs_added rest + 1
  | _ :: rest => playlist_refs_added rest

/-- Number of calls of `sp_playlist_release` in a trace. -/
def playlist_refs_released : List event → Nat
  | [] => 0
  | event.sp_playlist_release _ :: rest => playlist_refs_released rest + 1
  | _ :: rest => playlist_refs_released rest

/-- The call `json_string_value(json)`; `none` is NULL, for a value that is not a string. -/
def json_string_value : json_t → Option String
  | json_t.string s => some s
  | _ => none

/-- The object that a call of `playlist_to_json` returned, if it returned one. -/
def playlist_to_json_result.json? : playlist_to_json_result → Option json_t
  | playlist_to_json_result.object json => some json
  | _ => none

/-! ## Concrete inputs -/

/-- The canonical address used in the examples. -/
def example_uri : String := "spotify:user:alexander:playlist:284on3DVWeAxWkgVuzZKGt"

def example_track (loaded : Bool) (title : String) : sp_track :=
  { is_loaded := loaded, link := "spotify:track:58PipbkYEkKFzOowRPHF3m",
    artists := [{ name := "Artist" }], name := some title,
    album := { name := some "Album" }, duration := 215000, popularity := 0 }

/-- A playlist of five tracks of which three are loaded, owned by the user whose
canonical name is `alexander` and whose display name is `Al`. -/
def example_playlist (loaded : Bool) : sp_playlist :=
  { is_loaded := loaded, owner := { display_name := "Al" }, link := example_uri,
    name := "Mix", is_collaborative := Bool.false, description := none,
    num_subscribers := 3,
    tracks := [example_track Bool.true "one", example_track Bool.false "two",
      example_track Bool.true "three", example_track Bool.false "four",
      example_track Bool.true "five"] }

/-- A backend that parses `example_uri` only, as a playlist link, and resolves it to
`example_playlist loaded`; `malloc` answers `malloc_ok`. -/
def example_env (loaded : Bool) (malloc_ok : Bool) : env :=
  { sp_link_create_from_string := fun s =>
      if s = example_uri then some { type := sp_linktype.SP_LINKTYPE_PLAYLIST, str := s }
      else none,
    sp_playlist_create := fun _ => some (example_playlist loaded),
    malloc := fun _ => malloc_ok }

/-- The request `GET /playlist/<example_uri>`. -/
def example_get : evhttp_request :=
  { command := evhttp_cmd_type.EVHTTP_REQ_GET,
    decoded_uri := "/playlist/spotify:user:alexander:playlist:284on3DVWeAxWkgVuzZKGt" }

/-! ## Lemmas on the lifecycle -/

theorem playlist_state_changed_nil (playlist : sp_playlist) (handler : playlist_handler) :
    playlist_state_changed playlist handler = [] := by
  unfold playlist_state_changed
  split <;> rfl

theorem deliver_state_changed_eq (trace : List event) (playlist : sp_playlist) :
    deliver_state_changed trace playlist = trace := by
  unfold deliver_state_changed
  have h : ∀ hs : List playlist_handler,
      (hs.map (playlist_state_changed playlist)).flatten = [] := by
    intro hs
    induction hs with
    | nil => rfl
    | cons a as ih => simp [playlist_state_changed_nil]
  rw [h, List.append_nil]

theorem lifecycle_eq (e : env) (request : evhttp_request) (notifications : List sp_playlist) :
    lifecycle e request notifications = handle_request e request := by
  unfold lifecycle
  induction notifications with
  | nil => rfl
  | cons p ps ih => rw [List.foldl_cons, deliver_state_changed_eq]; exact ih

/-- Every call of `handle_request` either sends exactly one reply and registers no
handler, or sends no reply and registers one handler, holding the request and
`get_playlist`, on a playlist that is not loaded. -/
theorem handle_request_cases (e : env) (request : evhttp_request) :
    ((replies (handle_request e request)).length = 1 ∧
      registered_handlers (handle_request e request) = []) ∨
    ((replies (handle_request e request)).length = 0 ∧
      ∃ playlist handler, registered_handlers (handle_request e request) = [handler] ∧
        event.sp_playlist_add_callbacks playlist handler ∈ handle_request e request ∧
        sp_playlist_is_loaded playlist = Bool.false ∧
        handler.callback = handle_playlist_fn.get_playlist ∧
        handler.request = request) := by
  unfold handle_request
  cases hm : request.command <;>
    simp [replies, event.is_reply, registered_handlers, HTTP_NOTIMPL]
  unfold handle_request_uri
  split
  · simp [event.is_reply, registered_handlers]
  · split
    · simp [event.is_reply, registered_handlers]
    · split
      · simp [event.is_reply, registered_handlers, send_error, send_reply_json, send_reply]
      · split
        · simp [event.is_reply, registered_handlers, send_error, send_reply_json, send_reply]
        · split
          · simp [event.is_reply, registered_handlers, send_error, send_reply_json, send_reply]
          · unfold handle_request_playlist
            split
            · simp [event.is_reply, registered_handlers, send_error, send_reply_json,
                send_reply]
            · rename_i playlist hp
              cases hl : sp_playlist_is_loaded playlist
              · right
                simp [event.is_reply, registered_handlers, register_playlist_callbacks]
                exact hl
              · left
                simp only [sp_playlist_is_loaded] at hl
                simp [event.is_reply, registered_handlers, call_handle_playlist_fn,
                  get_playlist, playlist_to_json, sp_playlist_is_loaded, hl]
                cases hmal : e.malloc (playlist_uri_len playlist.owner.display_name) <;>
                  simp [event.is_reply, registered_handlers, send_error, send_reply_json,
                    send_reply]

theorem replies_handle_request_get (e : env) (request : evhttp_request)
    (hget : request.command = evhttp_cmd_type.EVHTTP_REQ_GET) :
    replies (handle_request e request) =
      replies (handle_request_uri e request evhttp_cmd_type.EVHTTP_REQ_GET) := by
  simp [handle_request, hget, replies, event.is_reply]

theorem replies_send_error (code : Nat) (message : String) :
    (replies (send_error code message)).length = 1 := by
  simp [replies, send_error, send_reply_json, send_reply, event.is_reply]

theorem replies_get_playlist (e : env) (playlist : sp_playlist)
    (hloaded : sp_playlist_is_loaded playlist = Bool.true) :
    (replies (get_playlist e playlist)).length = 1 := by
  simp only [sp_playlist_is_loaded] at hloaded
  cases hmal : e.malloc (playlist_uri_len playlist.owner.display_name) <;>
    simp [get_playlist, playlist_to_json, sp_playlist_is_loaded, hloaded, hmal, replies,
      send_error, send_reply_json, send_reply, event.is_reply]

/-! ## Lemmas on the path and on the dispatcher -/

/-- The call `strtok` skips any run of leading slashes. -/
theorem strtok_replicate (a : Nat) (s : List Char) :
    strtok '/' (List.replicate a '/' ++ s) = strtok '/' s := by
  induction a with
  | zero => rfl
  | succ n ih => simp [List.replicate_succ, strtok, ih]

theorem strtok_token_segment (tok rest : List Char) (h : '/' ∉ tok) :
    strtok_token '/' (tok ++ '/' :: rest) = (tok, rest) := by
  induction tok with
  | nil => simp [strtok_token]
  | cons c cs ih =>
    have hc : c ≠ '/' := fun hc => h (by simp [hc])
    have hcs : '/' ∉ cs := fun hcs => h (List.mem_cons_of_mem _ hcs)
    simp [strtok_token, hc, ih hcs]

theorem strtok_token_last (tok : List Char) (h : '/' ∉ tok) :
    strtok_token '/' tok = (tok, []) := by
  induction tok with
  | nil => simp [strtok_token]
  | cons c cs ih =>
    have hc : c ≠ '/' := fun hc => h (by simp [hc])
    have hcs : '/' ∉ cs := fun hcs => h (List.mem_cons_of_mem _ hcs)
    simp [strtok_token, hc, ih hcs]

theorem strtok_segment (tok rest : List Char) (hne : tok ≠ []) (h : '/' ∉ tok) :
    strtok '/' (tok ++ '/' :: rest) = some (tok, rest) := by
  cases tok with
  | nil => exact absurd rfl hne
  | cons c cs =>
    have hc : c ≠ '/' := fun hc => h (by simp [hc])
    rw [List.cons_append, strtok, if_neg hc, ← List.cons_append, strtok_token_segment _ _ h]

theorem strtok_last (tok : List Char) (hne : tok ≠ []) (h : '/' ∉ tok) :
    strtok '/' tok = some (tok, []) := by
  cases tok with
  | nil => exact absurd rfl hne
  | cons c cs =>
    have hc : c ≠ '/' := fun hc => h (by simp [hc])
    rw [strtok, if_neg hc, strtok_token_last _ h]

theorem strtok_slashes (b : Nat) : strtok '/' (List.replicate b '/') = none := by
  have := strtok_replicate b []
  simpa [strtok] using this

/-- The tokens that `handle_request` cuts from a path made of the segment `playlist`
and what follows it, whatever the number of slashes before and after the segment. -/
theorem strtok_playlist (a b : Nat) (s : List Char) :
    strtok '/' (List.replicate a '/' ++ "playlist".data ++ List.replicate (b + 1) '/' ++ s) =
      some ("playlist".data, List.replicate b '/' ++ s) := by
  rw [List.append_assoc, List.append_assoc, strtok_replicate, List.replicate_succ,
    List.cons_append]
  exact strtok_segment "playlist".data _ (by decide) (by decide)

theorem strtok_playlist_last (a : Nat) :
    strtok '/' (List.replicate a '/' ++ "playlist".data) = some ("playlist".data, []) := by
  rw [strtok_replicate]
  exact strtok_last "playlist".data (by decide) (by decide)

/-- Two requests whose uris give the same first token, and the same answer of the
second call of `strtok`, get the same reply statuses and hand the same strings to
`sp_link_create_from_string`. -/
theorem handle_request_uri_reply_codes (e : env) (r1 r2 : evhttp_request)
    (m : evhttp_cmd_type) (entity saved1 saved2 : List Char)
    (h1 : strtok '/' r1.decoded_uri.data = some (entity, saved1))
    (h2 : strtok '/' r2.decoded_uri.data = some (entity, saved2))
    (hs : strtok '/' saved1 = strtok '/' saved2) :
    reply_codes (handle_request_uri e r1 m) = reply_codes (handle_request_uri e r2 m) ∧
    links_created (handle_request_uri e r1 m) = links_created (handle_request_uri e r2 m) := by
  unfold handle_request_uri
  rw [h1, h2]
  simp only [hs]
  split
  · exact ⟨rfl, rfl⟩
  · split
    · exact ⟨rfl, rfl⟩
    · split
      · exact ⟨rfl, rfl⟩
      · split
        · exact ⟨rfl, rfl⟩
        · unfold handle_request_playlist
          split
          · exact ⟨rfl, rfl⟩
          · rename_i playlist _
            cases hl : sp_playlist_is_loaded playlist
            · simp [reply_codes, links_created, register_playlist_callbacks, event.reply_code]
            · exact ⟨rfl, rfl⟩

theorem handle_request_uri_unparsable (e : env) (request : evhttp_request)
    (m : evhttp_cmd_type) (entity saved playlist_uri saved2 : List Char)
    (h1 : strtok '/' request.decoded_uri.data = some (entity, saved))
    (h3 : strncmp entity "playlist".data 8 = 0)
    (h2 : strtok '/' saved = some (playlist_uri, saved2))
    (hparse : e.sp_link_create_from_string (String.mk playlist_uri) = none) :
    handle_request_uri e request m =
      [event.sp_link_create_from_string (String.mk playlist_uri)] ++
        send_error HTTP_NOTFOUND "Playlist link not found" := by
  unfold handle_request_uri
  rw [h1]
  dsimp only
  rw [if_neg (by simp [h3]), h2]
  dsimp only
  rw [hparse]

theorem handle_request_uri_missing_identifier (e : env) (request : evhttp_request)
    (m : evhttp_cmd_type) (entity saved : List Char)
    (h1 : strtok '/' request.decoded_uri.data = some (entity, saved))
    (h3 : strncmp entity "playlist".data 8 = 0)
    (h2 : strtok '/' saved = none) :
    handle_request_uri e request m = send_error HTTP_BADREQUEST "Bad Request" := by
  unfold handle_request_uri
  rw [h1]
  dsimp only
  rw [if_neg (by simp [h3]), h2]

theorem reply_codes_handle_request_get (e : env) (uri : String) :
    reply_codes (handle_request e
      { command := evhttp_cmd_type.EVHTTP_REQ_GET, decoded_uri := uri }) =
    reply_codes (handle_request_uri e
      { command := evhttp_cmd_type.EVHTTP_REQ_GET, decoded_uri := uri }
      evhttp_cmd_type.EVHTTP_REQ_GET) := by
  simp [handle_request, reply_codes, List.filterMap_append, event.reply_code]

theorem links_created_handle_request_get (e : env) (uri : String) :
    links_created (handle_request e
      { command := evhttp_cmd_type.EVHTTP_REQ_GET, decoded_uri := uri }) =
    links_created (handle_request_uri e
      { command := evhttp_cmd_type.EVHTTP_REQ_GET, decoded_uri := uri }
      evhttp_cmd_type.EVHTTP_REQ_GET) := by
  simp [handle_request, links_created]

/-! ## Lemmas on the serializer -/

theorem kv_get_set_same (key : String) (value : json_t) (kv : List (String × json_t)) :
    kv_get key (kv_set key value kv) = some value := by
  induction kv with
  | nil => simp [kv_set, kv_get]
  | cons p rest ih =>
    obtain ⟨k, v⟩ := p
    by_cases h : k = key
    · simp [kv_set, kv_get, h]
    · simp [kv_set, kv_get, h, ih]

theorem kv_get_set_ne (key other : String) (value : json_t) (kv : List (String × json_t))
    (hne : other ≠ key) : kv_get key (kv_set other value kv) = kv_get key kv := by
  induction kv with
  | nil => simp [kv_set, kv_get, hne]
  | cons p rest ih =>
    obtain ⟨k, v⟩ := p
    by_cases h : k = other
    · have hk : k ≠ key := by rw [h]; exact hne
      simp [kv_set, kv_get, h, hne]
    · simp [kv_set, kv_get, h, ih]

theorem kv_get_set (key other : String) (value : json_t) (kv : List (String × json_t)) :
    kv_get key (kv_set other value kv) =
      if other = key then some value else kv_get key kv := by
  by_cases h : other = key
  · rw [if_pos h, h, kv_get_set_same]
  · rw [if_neg h, kv_get_set_ne _ _ _ _ h]

/-- The track loop from index `pre.length` on, for a playlist whose tracks are
`pre ++ suf`: each loaded track of `suf` adds its metadata, in order. -/
theorem playlist_to_json_tracks_from (playlist : sp_playlist) (suf pre : List sp_track)
    (acc : List json_t) (h : playlist.tracks = pre ++ suf) :
    (List.range' pre.length suf.length).foldl (playlist_to_json_track playlist) acc =
      acc ++ (suf.filter (fun t => t.is_loaded)).map track_metadata := by
  induction suf generalizing pre acc with
  | nil => simp
  | cons a suf ih =>
    have hget : sp_playlist_track playlist pre.length = some a := by
      rw [sp_playlist_track, h, List.get?_eq_getElem?,
        List.getElem?_append_right (Nat.le_refl _)]
      simp
    have hpre : playlist.tracks = (pre ++ [a]) ++ suf := by simp [h]
    have hnext := ih (pre ++ [a]) (playlist_to_json_track playlist acc pre.length) hpre
    rw [List.length_append, List.length_singleton] at hnext
    rw [List.length_cons, List.range'_succ, List.foldl_cons, hnext]
    unfold playlist_to_json_track
    rw [hget]
    cases hl : a.is_loaded <;> simp [sp_track_is_loaded, hl]

theorem playlist_to_json_tracks_eq (playlist : sp_playlist) :
    playlist_to_json_tracks playlist =
      (playlist.tracks.filter (fun t => t.is_loaded)).map track_metadata := by
  unfold playlist_to_json_tracks sp_playlist_num_tracks
  rw [List.range_eq_range']
  have := playlist_to_json_tracks_from playlist playlist.tracks [] [] rfl
  simpa using this

/-! ## The claims -/

/-- C1 (the code departs from the claim).  The request `GET /playlist/<example_uri>`
arrives while the playlist is not loaded: `handle_request` registers one handler that
holds the request and `get_playlist`.  Three state-change notifications follow, the
playlist being loaded at the third: `playlist_state_changed` sends no reply at any of
them, where the claim has one `200` reply at the third. -/
theorem C1_deferred_request_is_never_answered :
    registered_handlers (handle_request (example_env Bool.false Bool.true) example_get) =
      [{ playlist_callbacks := sp_playlist_callbacks.playlist_state_changed_callbacks,
         request := example_get, callback := handle_playlist_fn.get_playlist,
         userdata := none }] ∧
    sp_playlist_is_loaded (example_playlist Bool.true) = Bool.true ∧
    reply_codes (lifecycle (example_env Bool.false Bool.true) example_get
      [example_playlist Bool.false, example_playlist Bool.false,
       example_playlist Bool.true]) = [] := by
  decide

/-- C2.  For every request, every answer of the backend and every finite sequence of
state-change notifications, at most one reply is sent over the lifecycle of the
request.  Exactly one is sent on each path that does not defer the request: a method
other than GET; an empty path, a kind that fails the test of the code, a missing
identifier; an identifier that does not parse, a link that is not a playlist link, a
playlist that does not resolve; a playlist that is already loaded.  On the remaining
path, a playlist that is not loaded, one handler holding the request and
`get_playlist` is registered.  Once a notification has found the playlist loaded,
later notifications make no call at all, so no completion runs a second time; in this
code `playlist_state_changed` does not run the completion a first time either. -/
theorem C2_single_reply (e : env) (request : evhttp_request)
    (notifications : List sp_playlist) :
    (replies (lifecycle e request notifications)).length ≤ 1 ∧
    (request.command ≠ evhttp_cmd_type.EVHTTP_REQ_GET →
      (replies (lifecycle e request notifications)).length = 1) ∧
    (request.command = evhttp_cmd_type.EVHTTP_REQ_GET →
      (strtok '/' request.decoded_uri.data = none →
        (replies (lifecycle e request notifications)).length = 1) ∧
      (∀ entity saved, strtok '/' request.decoded_uri.data = some (entity, saved) →
        (strncmp entity "playlist".data 8 ≠ 0 →
          (replies (lifecycle e request notifications)).length = 1) ∧
        (strncmp entity "playlist".data 8 = 0 →
          (strtok '/' saved = none →
            (replies (lifecycle e request notifications)).length = 1) ∧
          (∀ playlist_uri saved2, strtok '/' saved = some (playlist_uri, saved2) →
            (e.sp_link_create_from_string (String.mk playlist_uri) = none →
              (replies (lifecycle e request notifications)).length = 1) ∧
            (∀ playlist_link,
              e.sp_link_create_from_string (String.mk playlist_uri) = some playlist_link →
              (playlist_link.type ≠ sp_linktype.SP_LINKTYPE_PLAYLIST →
                (replies (lifecycle e request notifications)).length = 1) ∧
              (playlist_link.type = sp_linktype.SP_LINKTYPE_PLAYLIST →
                (e.sp_playlist_create playlist_link = none →
                  (replies (lifecycle e request notifications)).length = 1) ∧
                (∀ playlist, e.sp_playlist_create playlist_link = some playlist →
                  (sp_playlist_is_loaded playlist = Bool.true →
                    (replies (lifecycle e request notifications)).length = 1) ∧
                  (sp_playlist_is_loaded playlist = Bool.false →
                    registered_handlers (handle_request e request) =
                      [{ playlist_callbacks :=
                           sp_playlist_callbacks.playlist_state_changed_callbacks,
                         request := request,
                         callback := handle_playlist_fn.get_playlist,
                         userdata := none }])))))))) ∧
    (∀ (before after : List sp_playlist) (playlist : sp_playlist),
      sp_playlist_is_loaded playlist = Bool.true →
      lifecycle e request (before ++ playlist :: after) =
        lifecycle e request (before ++ [playlist])) := by
  refine ⟨?_, ?_, ?_, fun _ _ _ _ => by rw [lifecycle_eq, lifecycle_eq]⟩ <;>
    rw [lifecycle_eq]
  · rcases handle_request_cases e request with ⟨h1, _⟩ | ⟨h0, _⟩ <;> omega
  · intro hm
    unfold handle_request
    cases hc : request.command <;> simp_all [replies, event.is_reply]
  · intro hget
    rw [replies_handle_request_get e request hget]
    refine ⟨?_, ?_⟩
    · intro h1
      simp [handle_request_uri, h1, replies, event.is_reply]
    · intro entity saved h1
      refine ⟨?_, ?_⟩
      · intro hk
        simp [handle_request_uri, h1, hk, replies, event.is_reply]
      · intro hk
        refine ⟨?_, ?_⟩
        · intro h2
          have := replies_send_error HTTP_BADREQUEST "Bad Request"
          unfold handle_request_uri
          rw [h1]; dsimp only
          rw [if_neg (by simp [hk]), h2]
          exact this
        · intro playlist_uri saved2 h2
          have hu : handle_request_uri e request evhttp_cmd_type.EVHTTP_REQ_GET =
              (match e.sp_link_create_from_string (String.mk playlist_uri) with
              | none =>
                [event.sp_link_create_from_string (String.mk playlist_uri)] ++
                  send_error HTTP_NOTFOUND "Playlist link not found"
              | some playlist_link =>
                if playlist_link.type ≠ sp_linktype.SP_LINKTYPE_PLAYLIST then
                  [event.sp_link_create_from_string (String.mk playlist_uri),
                   event.sp_link_release playlist_link] ++
                    send_error HTTP_BADREQUEST "Not a playlist link"
                else
                  [event.sp_link_create_from_string (String.mk playlist_uri)] ++
                    handle_request_playlist e request evhttp_cmd_type.EVHTTP_REQ_GET
                      playlist_link) := by
            unfold handle_request_uri
            rw [h1]; dsimp only
            rw [if_neg (by simp [hk]), h2] <;> rfl
          refine ⟨?_, ?_⟩
          · intro hl
            rw [hu, hl]
            have := replies_send_error HTTP_NOTFOUND "Playlist link not found"
            simpa [replies, event.is_reply] using this
          · intro playlist_link hl
            refine ⟨?_, ?_⟩
            · intro ht
              rw [hu, hl]; dsimp only
              rw [if_pos ht]
              have := replies_send_error HTTP_BADREQUEST "Not a playlist link"
              simpa [replies, event.is_reply] using this
            · intro ht
              refine ⟨?_, ?_⟩
              · intro hp
                rw [hu, hl]; dsimp only
                rw [if_neg (by simp [ht])]
                unfold handle_request_playlist
                rw [hp]
                have := replies_send_error HTTP_NOTFOUND "Playlist not found"
                simpa [replies, event.is_reply] using this
              · intro playlist hp
                refine ⟨?_, ?_⟩
                · intro hld
                  rw [hu, hl]; dsimp only
                  rw [if_neg (by simp [ht])]
                  unfold handle_request_playlist
                  rw [hp]
                  have := replies_get_playlist e playlist hld
                  simpa [replies, event.is_reply, hld, call_handle_playlist_fn] using this
                · intro hld
                  unfold handle_request
                  rw [hget]; dsimp only
                  rw [hu, hl]; dsimp only
                  rw [if_neg (by simp [ht])]
                  unfold handle_request_playlist
                  rw [hp]
                  simp [registered_handlers, hld, register_playlist_callbacks, hget]

/-- Witness of C2 on four lifecycles: `GET /playlist/<example_uri>` on a loaded playlist
followed by three notifications (one reply), `GET /playlist/badid` (one reply), the same
request as the first on a playlist that is not loaded (one handler registered), and
that deferred request through notifications of which two find the playlist loaded. -/
theorem C2_single_reply_witness :
    (replies (lifecycle (example_env Bool.true Bool.true) example_get
      [example_playlist Bool.false, example_playlist Bool.true,
       example_playlist Bool.true])).length = 1 ∧
    (replies (lifecycle (example_env Bool.true Bool.true)
      { command := evhttp_cmd_type.EVHTTP_REQ_GET, decoded_uri := "/playlist/badid" }
      [example_playlist Bool.true])).length = 1 ∧
    registered_handlers (handle_request (example_env Bool.false Bool.true) example_get) =
      [{ playlist_callbacks := sp_playlist_callbacks.playlist_state_changed_callbacks,
         request := example_get, callback := handle_playlist_fn.get_playlist,
         userdata := none }] ∧
    lifecycle (example_env Bool.false Bool.true) example_get
        ([example_playlist Bool.false] ++
          example_playlist Bool.true :: [example_playlist Bool.true]) =
      lifecycle (example_env Bool.false Bool.true) example_get
        ([example_playlist Bool.false] ++ [example_playlist Bool.true]) := by
  refine ⟨?_, ?_, ?_, ?_⟩
  · have h := C2_single_reply (example_env Bool.true Bool.true) example_get
      [example_playlist Bool.false, example_playlist Bool.true, example_playlist Bool.true]
    have h1 := (h.2.2.1 rfl).2 "playlist".data example_uri.data (by decide)
    have h2 := (h1.2 (by decide)).2 example_uri.data [] (by decide)
    have h3 := (h2.2 { type := sp_linktype.SP_LINKTYPE_PLAYLIST, str := example_uri }
      (by decide)).2 rfl
    exact (h3.2 (example_playlist Bool.true) rfl).1 rfl
  · have h := C2_single_reply (example_env Bool.true Bool.true)
      { command := evhttp_cmd_type.EVHTTP_REQ_GET, decoded_uri := "/playlist/badid" }
      [example_playlist Bool.true]
    have h1 := (h.2.2.1 rfl).2 "playlist".data "badid".data (by decide)
    have h2 := (h1.2 (by decide)).2 "badid".data [] (by decide)
    exact h2.1 (by decide)
  · have h := C2_single_reply (example_env Bool.false Bool.true) example_get []
    have h1 := (h.2.2.1 rfl).2 "playlist".data example_uri.data (by decide)
    have h2 := (h1.2 (by decide)).2 example_uri.data [] (by decide)
    have h3 := (h2.2 { type := sp_linktype.SP_LINKTYPE_PLAYLIST, str := example_uri }
      (by decide)).2 rfl
    exact (h3.2 (example_playlist Bool.false) rfl).2 rfl
  · exact (C2_single_reply (example_env Bool.false Bool.true) example_get []).2.2.2
      [example_playlist Bool.false] [example_playlist Bool.true]
      (example_playlist Bool.true) rfl

/-- C3 (the code departs from the claim).  The kind is compared with
`strncmp(entity, "playlist", 8)`, on eight characters only: for `GET /playlists/<id>`
and `GET /playlistX/<id>`, with an identifier that the backend resolves to a loaded
playlist, `handle_request` hands the identifier to `sp_link_create_from_string`,
creates the playlist and replies `200`, where the claim has a `400` reply and no
backend call. -/
theorem C3_kind_is_compared_on_eight_characters :
    reply_codes (handle_request (example_env Bool.true Bool.true)
      { command := evhttp_cmd_type.EVHTTP_REQ_GET,
        decoded_uri := "/playlists/spotify:user:alexander:playlist:284on3DVWeAxWkgVuzZKGt" })
      = [200] ∧
    links_created (handle_request (example_env Bool.true Bool.true)
      { command := evhttp_cmd_type.EVHTTP_REQ_GET,
        decoded_uri := "/playlists/spotify:user:alexander:playlist:284on3DVWeAxWkgVuzZKGt" })
      = [example_uri] ∧
    reply_codes (handle_request (example_env Bool.true Bool.true)
      { command := evhttp_cmd_type.EVHTTP_REQ_GET,
        decoded_uri := "/playlistX/spotify:user:alexander:playlist:284on3DVWeAxWkgVuzZKGt" })
      = [200] ∧
    playlists_created (handle_request (example_env Bool.true Bool.true)
      { command := evhttp_cmd_type.EVHTTP_REQ_GET,
        decoded_uri := "/playlistX/spotify:user:alexander:playlist:284on3DVWeAxWkgVuzZKGt" })
      = 1 := by
  decide

/-- C4, counterexample.  For `GET /playlist/badid`, where `sp_link_create_from_string`
returns no link, the status of the reply of `handle_request` is `404`, not `400`. -/
theorem C4_unparsable_identifier_is_answered_404 :
    (example_env Bool.true Bool.true).sp_link_create_from_string "badid" = none ∧
    reply_codes (handle_request (example_env Bool.true Bool.true)
      { command := evhttp_cmd_type.EVHTTP_REQ_GET, decoded_uri := "/playlist/badid" })
      = [404] ∧
    reply_codes (handle_request (example_env Bool.true Bool.true)
      { command := evhttp_cmd_type.EVHTTP_REQ_GET, decoded_uri := "/playlist/badid" })
      ≠ [400] := by
  decide

/-- C4, amended.  For every `GET /playlist/<identifier>` (the identifier not empty and
without a slash) whose identifier `sp_link_create_from_string` does not parse,
`handle_request` makes that one backend call and replies through `send_error` with
status `404` and the JSON body `{"message": "Playlist link not found"}`. -/
theorem C4_unparsable_identifier_not_found (e : env) (identifier : List Char)
    (hne : identifier ≠ []) (hslash : '/' ∉ identifier)
    (hparse : e.sp_link_create_from_string (String.mk identifier) = none) :
    handle_request e
      { command := evhttp_cmd_type.EVHTTP_REQ_GET,
        decoded_uri := String.mk ("/playlist/".data ++ identifier) } =
      [event.evhttp_connection_set_timeout 1,
       event.evhttp_add_header "Server" "Spotify API",
       event.sp_link_create_from_string (String.mk identifier),
       event.evhttp_add_header "Content-type" "application/json; charset=UTF-8",
       event.evhttp_send_reply 404 "Playlist link not found"
         [json_t.object [("message", json_t.string "Playlist link not found")]]] := by
  have h1 : strtok '/' ("/playlist/".data ++ identifier) =
      some ("playlist".data, identifier) := strtok_playlist 1 0 identifier
  have h2 : strtok '/' identifier = some (identifier, []) := strtok_last _ hne hslash
  have h3 : strncmp "playlist".data "playlist".data 8 = 0 := by decide
  unfold handle_request
  dsimp only
  rw [handle_request_uri_unparsable e _ _ "playlist".data identifier identifier [] h1 h3 h2
    hparse]
  rfl

/-- Witness of the amended C4 on `GET /playlist/badid`. -/
theorem C4_unparsable_identifier_not_found_witness :
    handle_request (example_env Bool.true Bool.true)
      { command := evhttp_cmd_type.EVHTTP_REQ_GET,
        decoded_uri := String.mk ("/playlist/".data ++ "badid".data) } =
      [event.evhttp_connection_set_timeout 1,
       event.evhttp_add_header "Server" "Spotify API",
       event.sp_link_create_from_string (String.mk "badid".data),
       event.evhttp_add_header "Content-type" "application/json; charset=UTF-8",
       event.evhttp_send_reply 404 "Playlist link not found"
         [json_t.object [("message", json_t.string "Playlist link not found")]]] :=
  C4_unparsable_identifier_not_found (example_env Bool.true Bool.true) "badid".data
    (by decide) (by decide) (by decide)

/-- C5.  For every request whose method is not GET, whatever its path and whatever
the backend would answer, `handle_request` sets the timeout and the `Server` header
and replies `501 Not Implemented`; it makes no other call, so no link is created from
the path and no playlist handle is created. -/
theorem C5_other_methods_not_implemented (e : env) (request : evhttp_request)
    (hmethod : request.command ≠ evhttp_cmd_type.EVHTTP_REQ_GET) :
    handle_request e request =
      [event.evhttp_connection_set_timeout 1,
       event.evhttp_add_header "Server" "Spotify API",
       event.evhttp_send_error 501 "Not Implemented"] ∧
    reply_codes (handle_request e request) = [501] ∧
    links_created (handle_request e request) = [] ∧
    playlists_created (handle_request e request) = 0 := by
  have h : handle_request e request =
      [event.evhttp_connection_set_timeout 1,
       event.evhttp_add_header "Server" "Spotify API",
       event.evhttp_send_error 501 "Not Implemented"] := by
    unfold handle_request
    cases hc : request.command <;> simp_all [HTTP_NOTIMPL]
  rw [h]
  exact ⟨rfl, rfl, rfl, rfl⟩

/-- Witness of C5 on `POST /playlist/<example_uri>`. -/
theorem C5_other_methods_not_implemented_witness :
    handle_request (example_env Bool.true Bool.true)
      { example_get with command := evhttp_cmd_type.EVHTTP_REQ_POST } =
      [event.evhttp_connection_set_timeout 1,
       event.evhttp_add_header "Server" "Spotify API",
       event.evhttp_send_error 501 "Not Implemented"] ∧
    reply_codes (handle_request (example_env Bool.true Bool.true)
      { example_get with command := evhttp_cmd_type.EVHTTP_REQ_POST }) = [501] ∧
    links_created (handle_request (example_env Bool.true Bool.true)
      { example_get with command := evhttp_cmd_type.EVHTTP_REQ_POST }) = [] ∧
    playlists_created (handle_request (example_env Bool.true Bool.true)
      { example_get with command := evhttp_cmd_type.EVHTTP_REQ_POST }) = 0 :=
  C5_other_methods_not_implemented (example_env Bool.true Bool.true)
    { example_get with command := evhttp_cmd_type.EVHTTP_REQ_POST } (by decide)

/-- C6, counterexample.  For `GET //playlist/<id>` and `GET /playlist//<id>`, with an
identifier that the backend resolves to a loaded playlist, `handle_request` replies
`200`, not `400`: `strtok` skips runs of slashes. -/
theorem C6_duplicate_slashes_are_served :
    reply_codes (handle_request (example_env Bool.true Bool.true)
      { command := evhttp_cmd_type.EVHTTP_REQ_GET,
        decoded_uri := "//playlist/spotify:user:alexander:playlist:284on3DVWeAxWkgVuzZKGt" })
      = [200] ∧
    reply_codes (handle_request (example_env Bool.true Bool.true)
      { command := evhttp_cmd_type.EVHTTP_REQ_GET,
        decoded_uri := "/playlist//spotify:user:alexander:playlist:284on3DVWeAxWkgVuzZKGt" })
      = [200] := by
  decide

/-- C6, amended.  For every GET request whose path is the segment `playlist` with any
number of slashes before and after it and nothing else (`/playlist`, `/playlist/`),
`handle_request` replies through `send_error` with `400 Bad Request`.  Consecutive
slashes are one separator: a path with runs of slashes before `playlist` and before
what follows it gets the reply statuses, and hands the backend the identifiers, of
the path `/playlist/` followed by the same rest. -/
theorem C6_missing_identifier_bad_request (e : env) (a b : Nat) (s : List Char) :
    handle_request e
      { command := evhttp_cmd_type.EVHTTP_REQ_GET,
        decoded_uri := String.mk (List.replicate a '/' ++ "playlist".data ++
          List.replicate b '/') } =
      [event.evhttp_connection_set_timeout 1,
       event.evhttp_add_header "Server" "Spotify API",
       event.evhttp_add_header "Content-type" "application/json; charset=UTF-8",
       event.evhttp_send_reply 400 "Bad Request"
         [json_t.object [("message", json_t.string "Bad Request")]]] ∧
    reply_codes (handle_request e
      { command := evhttp_cmd_type.EVHTTP_REQ_GET,
        decoded_uri := String.mk (List.replicate (a + 1) '/' ++ "playlist".data ++
          List.replicate (b + 1) '/' ++ s) }) =
      reply_codes (handle_request e
        { command := evhttp_cmd_type.EVHTTP_REQ_GET,
          decoded_uri := String.mk ("/playlist/".data ++ s) }) ∧
    links_created (handle_request e
      { command := evhttp_cmd_type.EVHTTP_REQ_GET,
        decoded_uri := String.mk (List.replicate (a + 1) '/' ++ "playlist".data ++
          List.replicate (b + 1) '/' ++ s) }) =
      links_created (handle_request e
        { command := evhttp_cmd_type.EVHTTP_REQ_GET,
          decoded_uri := String.mk ("/playlist/".data ++ s) }) := by
  have h3 : strncmp "playlist".data "playlist".data 8 = 0 := by decide
  refine ⟨?_, ?_⟩
  · have hu : handle_request_uri e
        { command := evhttp_cmd_type.EVHTTP_REQ_GET,
          decoded_uri := String.mk (List.replicate a '/' ++ "playlist".data ++
            List.replicate b '/') } evhttp_cmd_type.EVHTTP_REQ_GET =
        send_error HTTP_BADREQUEST "Bad Request" := by
      cases b with
      | zero =>
        refine handle_request_uri_missing_identifier e _ _ "playlist".data [] ?_ h3 rfl
        show strtok '/' (List.replicate a '/' ++ "playlist".data ++ List.replicate 0 '/') = _
        rw [List.replicate_zero, List.append_nil]
        exact strtok_playlist_last a
      | succ n =>
        refine handle_request_uri_missing_identifier e _ _ "playlist".data
          (List.replicate n '/') ?_ h3 (strtok_slashes n)
        have := strtok_playlist a n []
        simp only [List.append_nil] at this
        exact this
    unfold handle_request
    dsimp only
    rw [hu]
    rfl
  · have h := handle_request_uri_reply_codes e
      { command := evhttp_cmd_type.EVHTTP_REQ_GET,
        decoded_uri := String.mk (List.replicate (a + 1) '/' ++ "playlist".data ++
          List.replicate (b + 1) '/' ++ s) }
      { command := evhttp_cmd_type.EVHTTP_REQ_GET,
        decoded_uri := String.mk ("/playlist/".data ++ s) }
      evhttp_cmd_type.EVHTTP_REQ_GET "playlist".data (List.replicate b '/' ++ s) s
      (strtok_playlist (a + 1) b s) (strtok_playlist 1 0 s) (strtok_replicate b s)
    rw [reply_codes_handle_request_get, reply_codes_handle_request_get,
      links_created_handle_request_get, links_created_handle_request_get]
    exact h

/-- C7 (the code departs from the claim).  The rejections of a method other than GET
(`POST /playlist/<example_uri>`), of an empty path (`GET /`) and of a wrong kind
(`GET /album/badid`) call `evhttp_send_error` of libevent directly: `send_error` is not
run, so no JSON object with a `message` is built and no `Content-type` header is
added.  The sibling rejection of a missing identifier (`GET /playlist`), with the same
status and reason, does go through `send_error`. -/
theorem C7_early_rejections_bypass_send_error :
    handle_request (example_env Bool.true Bool.true)
      { example_get with command := evhttp_cmd_type.EVHTTP_REQ_POST } =
      [event.evhttp_connection_set_timeout 1,
       event.evhttp_add_header "Server" "Spotify API",
       event.evhttp_send_error 501 "Not Implemented"] ∧
    handle_request (example_env Bool.true Bool.true)
      { command := evhttp_cmd_type.EVHTTP_REQ_GET, decoded_uri := "/" } =
      [event.evhttp_connection_set_timeout 1,
       event.evhttp_add_header "Server" "Spotify API",
       event.evhttp_send_error 400 "Bad Request"] ∧
    handle_request (example_env Bool.true Bool.true)
      { command := evhttp_cmd_type.EVHTTP_REQ_GET, decoded_uri := "/album/badid" } =
      [event.evhttp_connection_set_timeout 1,
       event.evhttp_add_header "Server" "Spotify API",
       event.evhttp_send_error 400 "Bad Request"] ∧
    handle_request (example_env Bool.true Bool.true)
      { command := evhttp_cmd_type.EVHTTP_REQ_GET, decoded_uri := "/playlist" } =
      [event.evhttp_connection_set_timeout 1,
       event.evhttp_add_header "Server" "Spotify API",
       event.evhttp_add_header "Content-type" "application/json; charset=UTF-8",
       event.evhttp_send_reply 400 "Bad Request"
         [json_t.object [("message", json_t.string "Bad Request")]]] :=
  ⟨rfl, rfl, rfl, rfl⟩

/-- C8.  For every loaded playlist, when the allocation of the uri buffer succeeds,
`playlist_to_json` returns the object with `trackCount` equal to the number of tracks
that the backend reports, and with a `tracks` array that holds the metadata of the
loaded tracks, in playlist order, and nothing for an unloaded track; its length is
the number of loaded tracks. -/
theorem C8_track_count_and_loaded_tracks (e : env) (playlist : sp_playlist)
    (kv : List (String × json_t))
    (hloaded : sp_playlist_is_loaded playlist = Bool.true)
    (hmalloc : e.malloc (playlist_uri_len playlist.owner.display_name) = Bool.true) :
    ∃ doc, playlist_to_json e playlist (json_t.object kv) = playlist_to_json_result.object doc ∧
      json_object_get doc "trackCount" =
        some (json_t.integer (sp_playlist_num_tracks playlist : Int)) ∧
      json_object_get doc "tracks" =
        some (json_t.array
          ((playlist.tracks.filter (fun t => t.is_loaded)).map track_metadata)) ∧
      (json_object_get doc "tracks").map json_array_size =
        some (playlist.tracks.countP (fun t => t.is_loaded)) := by
  have hne : ("tracks" : String) ≠ "trackCount" := by decide
  simp only [playlist_to_json, hloaded, hmalloc, Bool.not_true, Bool.false_eq_true, if_false]
  refine ⟨_, rfl, ?_, ?_, ?_⟩
  · cases hd : playlist.description <;>
      simp [hd, json_object_get, json_object_set_new, json_object_set_new_nocheck,
        playlist_to_json_set_collaborative, kv_get_set_same, kv_get_set_ne _ _ _ _ hne]
  · cases hd : playlist.description <;>
      simp [hd, json_object_get, json_object_set_new, json_object_set_new_nocheck,
        playlist_to_json_set_collaborative, kv_get_set_same, playlist_to_json_tracks_eq]
  · cases hd : playlist.description <;>
      simp [hd, json_object_get, json_object_set_new, json_object_set_new_nocheck,
        playlist_to_json_set_collaborative, kv_get_set_same, playlist_to_json_tracks_eq,
        json_array_size, List.countP_eq_length_filter]

/-- Witness of C8 on a playlist of five tracks of which three are loaded. -/
theorem C8_track_count_and_loaded_tracks_witness :
    sp_playlist_num_tracks (example_playlist Bool.true) = 5 ∧
    (example_playlist Bool.true).tracks.countP (fun t => t.is_loaded) = 3 ∧
    ∃ doc, playlist_to_json (example_env Bool.true Bool.true) (example_playlist Bool.true)
        json_object = playlist_to_json_result.object doc ∧
      json_object_get doc "trackCount" =
        some (json_t.integer (sp_playlist_num_tracks (example_playlist Bool.true) : Int)) ∧
      json_object_get doc "tracks" =
        some (json_t.array
          (((example_playlist Bool.true).tracks.filter (fun t => t.is_loaded)).map
            track_metadata)) ∧
      (json_object_get doc "tracks").map json_array_size =
        some ((example_playlist Bool.true).tracks.countP (fun t => t.is_loaded)) :=
  ⟨by decide, by decide,
   C8_track_count_and_loaded_tracks (example_env Bool.true Bool.true)
     (example_playlist Bool.true) [] (by decide) (by decide)⟩

/-- C9 (the code departs from the claim).  For `GET /playlist/<example_uri>`, the
trace of the whole lifecycle holds one `sp_playlist_add_ref` and no
`sp_playlist_release`, on the immediate-success path (reply `200`), on the
serialization-failure path (`malloc` fails, reply `500`) and on the deferred path
followed by notifications: the reference is never given back. -/
theorem C9_playlist_reference_is_never_released :
    playlist_refs_added (lifecycle (example_env Bool.true Bool.true) example_get []) = 1 ∧
    playlist_refs_released (lifecycle (example_env Bool.true Bool.true) example_get []) = 0 ∧
    reply_codes (lifecycle (example_env Bool.true Bool.true) example_get []) = [200] ∧
    playlist_refs_added (lifecycle (example_env Bool.true Bool.false) example_get []) = 1 ∧
    playlist_refs_released (lifecycle (example_env Bool.true Bool.false) example_get []) = 0 ∧
    reply_codes (lifecycle (example_env Bool.true Bool.false) example_get []) = [500] ∧
    playlist_refs_added (lifecycle (example_env Bool.false Bool.true) example_get
      [example_playlist Bool.false, example_playlist Bool.true]) = 1 ∧
    playlist_refs_released (lifecycle (example_env Bool.false Bool.true) example_get
      [example_playlist Bool.false, example_playlist Bool.true]) = 0 := by
  decide

/-- C10 (the code departs from the claim).  The owner of `example_playlist` has the
display name `Al` and the canonical name `alexander`: the buffer is 48 bytes for a
link string of 54 characters, and the `uri` member that `playlist_to_json` emits is the
link string cut to 47 characters, not the link string. -/
theorem C10_uri_is_cut_to_the_buffer :
    playlist_uri_len (example_playlist Bool.true).owner.display_name = 48 ∧
    strlen (example_playlist Bool.true).link = 54 ∧
    ((playlist_to_json (example_env Bool.true Bool.true) (example_playlist Bool.true)
      json_object).json?.bind (fun doc => json_object_get doc "uri")).bind json_string_value =
      some "spotify:user:alexander:playlist:284on3DVWeAxWkg" ∧
    ((playlist_to_json (example_env Bool.true Bool.true) (example_playlist Bool.true)
      json_object).json?.bind (fun doc => json_object_get doc "uri")).bind json_string_value ≠
      some (example_playlist Bool.true).link := by
  decide

/-- C11.  For every loaded playlist, when the allocation of the uri buffer succeeds and
the object handed to `playlist_to_json` has no `description` member yet (as the new
object that `get_playlist` hands it), the returned document has the member
`description` exactly when the backend reports a description, with that string as its
value; with no description the member is missing, so it is neither null nor the empty
string.  Every other member of the document is the same whatever the description. -/
theorem C11_description_key_iff_reported (e : env) (playlist : sp_playlist)
    (kv : List (String × json_t))
    (hloaded : sp_playlist_is_loaded playlist = Bool.true)
    (hmalloc : e.malloc (playlist_uri_len playlist.owner.display_name) = Bool.true)
    (hfresh : kv_get "description" kv = none) :
    ∃ doc, playlist_to_json e playlist (json_t.object kv) = playlist_to_json_result.object doc ∧
      json_object_get doc "description" = playlist.description.map json_t.string ∧
      ∀ (other : Option String) (key : String), key ≠ "description" →
        ∃ doc2, playlist_to_json e { playlist with description := other } (json_t.object kv) =
            playlist_to_json_result.object doc2 ∧
          json_object_get doc2 key = json_object_get doc key := by
  have hloaded2 : ∀ other : Option String,
      sp_playlist_is_loaded { playlist with description := other } = Bool.true := fun _ => hloaded
  simp only [playlist_to_json, hloaded, hloaded2, hmalloc, Bool.not_true, Bool.false_eq_true,
    if_false]
  refine ⟨_, rfl, ?_, ?_⟩
  · cases hd : playlist.description <;>
      simp [json_object_get, json_object_set_new, json_object_set_new_nocheck,
        playlist_to_json_set_collaborative, kv_get_set, hfresh]
  · intro other key hkey
    refine ⟨_, rfl, ?_⟩
    have hkey2 : ¬ ("description" = key) := fun h => hkey h.symm
    have htracks : ∀ other : Option String,
        playlist_to_json_tracks { playlist with description := other } =
          playlist_to_json_tracks playlist := fun _ => rfl
    cases hd : playlist.description <;> cases other <;>
      simp [json_object_get, json_object_set_new, json_object_set_new_nocheck,
        playlist_to_json_set_collaborative, kv_get_set, hkey2, htracks,
        sp_playlist_num_tracks]

/-- Witness of C11 on `example_playlist`, for which the backend reports no description,
serialized into a new object. -/
theorem C11_description_key_iff_reported_witness :
    (example_playlist Bool.true).description = none ∧
    ∃ doc, playlist_to_json (example_env Bool.true Bool.true) (example_playlist Bool.true)
        (json_t.object []) = playlist_to_json_result.object doc ∧
      json_object_get doc "description" =
        (example_playlist Bool.true).description.map json_t.string ∧
      ∀ (other : Option String) (key : String), key ≠ "description" →
        ∃ doc2, playlist_to_json (example_env Bool.true Bool.true)
            { example_playlist Bool.true with description := other } (json_t.object []) =
            playlist_to_json_result.object doc2 ∧
          json_object_get doc2 key = json_object_get doc key :=
  ⟨rfl,
   C11_description_key_iff_reported (example_env Bool.true Bool.true)
     (example_playlist Bool.true) [] (by decide) (by decide) rfl⟩

end SpotifyApiServer
